import Mathlib

/-!
Verification of the ride-data FIT-file viewer against its specification.

The JavaScript source is shallowly embedded in Lean:
* JS numbers are modelled as rationals (`ℚ`); timestamps (millisecond epoch
  values obtained from `new Date(...)`) as integers (`ℤ`).
* `x.toFixed(f)` followed by `parseFloat` is modelled by `jsToFixedRat f`,
  rounding to `f` decimal places (nearest, ties up).
* Nullable JS values are modelled with `Option`.
* The stateful React component is modelled by an explicit `AppState`
  structure and a transition function per event.
-/

/-- Model of `parseFloat(x.toFixed(f))`: round `q` to `f` decimal places. -/
def jsToFixedRat (f : ℕ) (q : ℚ) : ℚ :=
  ((round (q * (10 : ℚ) ^ f) : ℤ) : ℚ) / (10 : ℚ) ^ f

/-- Model of JS truncation (`Math.trunc`, and the rounding used by `%`). -/
def jsTrunc (q : ℚ) : ℤ :=
  if 0 ≤ q then ⌊q⌋ else ⌈q⌉

/-- Model of the JS remainder operator `a % b` (sign follows the dividend). -/
def jsMod (a b : ℚ) : ℚ :=
  a - b * (jsTrunc (a / b) : ℚ)

/-!
## ClimbCalculator (Linear mode)

Modelled from the spec: the repository plans a "Calculated Climb Data"
section (source comments, plan items 6 and 7) but the reviewed revision
contains no climb-calculation code, so the Linear-mode ClimbCalculator is
modelled from the spec's words: total ascent is the sum over consecutive
sample pairs of `max(0, altitude[i+1] - altitude[i])`, total descent the
sum of `max(0, altitude[i] - altitude[i+1])`, and a series with fewer than
2 samples yields ascent = descent = 0.
-/

/-- Modelled from the spec: Linear-mode ClimbCalculator, computed by a
single pass over consecutive pairs. Returns (totalAscent, totalDescent). -/
def climbLinear : List ℚ → ℚ × ℚ
  | a :: b :: rest =>
    let r := climbLinear (b :: rest)
    (max 0 (b - a) + r.1, max 0 (a - b) + r.2)
  | _ => (0, 0)

/-- The claim's formula for total ascent: sum of `max(0, altitude[i+1] - altitude[i])`. -/
def ascentSum (l : List ℚ) : ℚ :=
  ((l.zip l.tail).map (fun p => max 0 (p.2 - p.1))).sum

/-- The claim's formula for total descent: sum of `max(0, altitude[i] - altitude[i+1])`. -/
def descentSum (l : List ℚ) : ℚ :=
  ((l.zip l.tail).map (fun p => max 0 (p.1 - p.2))).sum

/-- Total absolute altitude variation over consecutive pairs. -/
def totalVariation (l : List ℚ) : ℚ :=
  ((l.zip l.tail).map (fun p => |p.2 - p.1|)).sum

lemma climbLinear_eq_sums (l : List ℚ) :
    climbLinear l = (ascentSum l, descentSum l) := by
  induction l with
  | nil => rfl
  | cons a t ih =>
    cases t with
    | nil => rfl
    | cons b rest =>
      simp only [climbLinear, ih, ascentSum, descentSum, List.zip_cons_cons,
        List.tail_cons, List.map_cons, List.sum_cons]

lemma max_add_max_abs (a b : ℚ) : max 0 (b - a) + max 0 (a - b) = |b - a| := by
  rcases le_total a b with h | h
  · rw [max_eq_right (by linarith), max_eq_left (by linarith),
      abs_of_nonneg (by linarith)]
    ring
  · rw [max_eq_left (by linarith), max_eq_right (by linarith),
      abs_of_nonpos (by linarith)]
    ring

lemma ascentSum_add_descentSum (l : List ℚ) :
    ascentSum l + descentSum l = totalVariation l := by
  induction l with
  | nil => simp [ascentSum, descentSum, totalVariation]
  | cons a t ih =>
    cases t with
    | nil => simp [ascentSum, descentSum, totalVariation]
    | cons b rest =>
      simp only [ascentSum, descentSum, totalVariation, List.zip_cons_cons,
        List.tail_cons, List.map_cons, List.sum_cons] at ih ⊢
      rw [← max_add_max_abs a b]
      ring_nf
      ring_nf at ih
      linarith

/-- C1: Linear-mode ClimbCalculator returns the pairwise ascent and descent
sums; a series with fewer than 2 samples yields ascent = descent = 0; the
series [100, 105, 95, 110] yields ascent 20 and descent 10; and
ascent + descent equals the total absolute altitude variation. -/
theorem claim1_climb_linear :
    (∀ l : List ℚ, climbLinear l = (ascentSum l, descentSum l)) ∧
    (∀ l : List ℚ, l.length < 2 → climbLinear l = (0, 0)) ∧
    climbLinear [100, 105, 95, 110] = (20, 10) ∧
    (∀ l : List ℚ, (climbLinear l).1 + (climbLinear l).2 = totalVariation l) := by
  refine ⟨climbLinear_eq_sums, ?_, ?_, ?_⟩
  · intro l h
    match l, h with
    | [], _ => rfl
    | [_], _ => rfl
  · simp only [climbLinear]
    norm_num
  · intro l
    rw [climbLinear_eq_sums]
    exact ascentSum_add_descentSum l

/-- Witness for C1 at the one-sample series [5]. -/
theorem claim1_climb_linear_witness :
    ([(5 : ℚ)].length < 2) ∧ climbLinear [(5 : ℚ)] = (0, 0) :=
  ⟨by decide, claim1_climb_linear.2.1 [(5 : ℚ)] (by decide)⟩

/-!
## SampleNormalizer (App.onDrop record processing, src/unnamed/part_001)

A decoded FIT record (`recordMesgs[n]`) with the fields the component
reads. Timestamps are millisecond epoch integers (`new Date(...)` values);
all other fields are JS numbers, nullable.
-/

/-- A raw decoded record as consumed by `onDrop`. -/
structure RawRecord where
  timestamp : Option ℤ
  distance : Option ℚ
  enhancedDistance : Option ℚ
  altitude : Option ℚ
  enhancedAltitude : Option ℚ
  positionLat : Option ℤ
  positionLong : Option ℤ
  speed : Option ℚ
  heartRate : Option ℚ
  cadence : Option ℚ
  power : Option ℚ
  grade : Option ℚ
deriving DecidableEq

/-- A RawRecord with every field absent, for building concrete inputs. -/
def emptyRecord : RawRecord :=
  ⟨none, none, none, none, none, none, none, none, none, none, none, none⟩

/-- One canonical chart sample (a `dataEntry` built in `onDrop`). -/
structure SamplePoint where
  time : ℤ
  distance : ℚ
  timestamp : ℤ
  latitude : Option ℚ
  longitude : Option ℚ
  altitude : Option ℚ
  speed : Option ℚ
  heartRate : Option ℚ
  cadence : Option ℚ
  power : Option ℚ
  grade : Option ℚ
deriving DecidableEq

/-- Semicircle position decoding: `degrees = semicircle * (180 / 2^31)`. -/
def semicirclesToDegrees (s : ℤ) : ℚ :=
  (s : ℚ) * (180 / 2 ^ 31)

/-- Timestamp of a record; the code only reads it on records that passed
the timestamp filter, where it is present. -/
def tsOf (r : RawRecord) : ℤ :=
  r.timestamp.getD 0

/-- The filter `r.timestamp != null && (r.distance != null || r.enhancedDistance != null)`. -/
def recordsWithDistance (records : List RawRecord) : List RawRecord :=
  records.filter fun r =>
    r.timestamp.isSome && (r.distance.isSome || r.enhancedDistance.isSome)

/-- Comparator used by `.sort((a, b) => new Date(a.timestamp) - new Date(b.timestamp))`. -/
def recLE (a b : RawRecord) : Prop :=
  tsOf a ≤ tsOf b

instance : DecidableRel recLE := fun a b =>
  inferInstanceAs (Decidable (tsOf a ≤ tsOf b))

instance : IsTotal RawRecord recLE :=
  ⟨fun a b => le_total (tsOf a) (tsOf b)⟩

instance : IsTrans RawRecord recLE :=
  ⟨fun _ _ _ => le_trans⟩

/-- The `dataEntry.distance` expression: the base `distance` field wins,
`enhancedDistance` is the fallback (metres → km, `toFixed(2)`), else 0. -/
def rawDistKm (r : RawRecord) : ℚ :=
  match r.distance with
  | some d => jsToFixedRat 2 (d / 1000)
  | none =>
    match r.enhancedDistance with
    | some e => jsToFixedRat 2 (e / 1000)
    | none => 0

/-- The `dataEntry` built for one record, given the first retained record's
timestamp `t0`. Mirrors `onDrop`: `time` is the elapsed milliseconds;
`distance` prefers the base `distance` field and falls back to
`enhancedDistance` (metres → km, `toFixed(2)`); the FIT-config loop adds
`altitude` (enhanced variant preferred when the base is present),
`speed` (`toFixed(3)`), `grade` (`toFixed(2)`) and the raw
heart-rate/cadence/power values. -/
def sampleOfRecord (t0 : ℤ) (r : RawRecord) : SamplePoint where
  time := tsOf r - t0
  distance := rawDistKm r
  timestamp := tsOf r
  latitude := r.positionLat.map semicirclesToDegrees
  longitude := r.positionLong.map semicirclesToDegrees
  altitude :=
    match r.altitude with
    | none => none
    | some a =>
      match r.enhancedAltitude with
      | some e => some (jsToFixedRat 2 e)
      | none => some (jsToFixedRat 2 a)
  speed := r.speed.map (jsToFixedRat 3)
  heartRate := r.heartRate
  cadence := r.cadence
  power := r.power
  grade := r.grade.map (jsToFixedRat 2)

/-- The record-processing pipeline of `onDrop`: filter the usable records,
sort them by timestamp ascending (JS `Array.prototype.sort` is stable, as
is `List.insertionSort`), and map each to its `dataEntry` relative to the
first retained (post-sort) record's timestamp. -/
def processRecords (records : List RawRecord) : List SamplePoint :=
  match List.insertionSort recLE (recordsWithDistance records) with
  | [] => []
  | first :: rest => (first :: rest).map (sampleOfRecord (tsOf first))

/-!
## C2 — which variant wins when both base and enhanced are present

The spec claims the enhanced variant takes precedence for both altitude
and distance. The code agrees for altitude, but for distance the BASE
field wins: `record.distance != null ? record.distance/1000 : ...`.
-/

/-- A record carrying both variants of altitude and of distance. -/
def c2BothRecord : RawRecord :=
  { emptyRecord with
    timestamp := some 0
    distance := some 1000
    enhancedDistance := some 2000
    altitude := some 200
    enhancedAltitude := some 250 }

/-- Counterexample for C2: on a record with `distance = 1000` m and
`enhancedDistance = 2000` m, normalization keeps the BASE distance
(1 km), not the enhanced one (2 km), so "the enhanced variant's value is
used for elapsed distance" is false. (The altitude half does use the
enhanced variant: 250, not 200.) -/
theorem claim2_counterexample :
    (processRecords [c2BothRecord]).map (fun p => p.distance) = [1] ∧
    ¬ (processRecords [c2BothRecord]).map (fun p => p.distance) = [2] ∧
    (processRecords [c2BothRecord]).map (fun p => p.altitude) = [some 250] := by
  norm_num [processRecords, recordsWithDistance, c2BothRecord, emptyRecord,
    recLE, tsOf, sampleOfRecord, rawDistKm, jsToFixedRat, round_eq]

/-- C2 (amended): when both altitude variants are present the enhanced
altitude is used; but for distance the BASE field takes precedence when
both are present, the enhanced distance being used only when the base
distance is absent. -/
theorem claim2_variant_precedence :
    (∀ (t0 : ℤ) (r : RawRecord) (a e : ℚ), r.altitude = some a →
      r.enhancedAltitude = some e →
      (sampleOfRecord t0 r).altitude = some (jsToFixedRat 2 e)) ∧
    (∀ (t0 : ℤ) (r : RawRecord) (d : ℚ), r.distance = some d →
      (sampleOfRecord t0 r).distance = jsToFixedRat 2 (d / 1000)) ∧
    (∀ (t0 : ℤ) (r : RawRecord) (e : ℚ), r.distance = none →
      r.enhancedDistance = some e →
      (sampleOfRecord t0 r).distance = jsToFixedRat 2 (e / 1000)) := by
  refine ⟨?_, ?_, ?_⟩
  · intro t0 r a e ha he
    simp [sampleOfRecord, ha, he]
  · intro t0 r d hd
    simp [sampleOfRecord, rawDistKm, hd]
  · intro t0 r e hd he
    simp [sampleOfRecord, rawDistKm, hd, he]

/-- Witness for C2 (amended) at a record with both variants of both fields. -/
theorem claim2_variant_precedence_witness :
    (sampleOfRecord 0 c2BothRecord).altitude = some (jsToFixedRat 2 250) ∧
    (sampleOfRecord 0 c2BothRecord).distance = jsToFixedRat 2 (1000 / 1000) :=
  ⟨claim2_variant_precedence.1 0 c2BothRecord 200 250 rfl rfl,
   claim2_variant_precedence.2.1 0 c2BothRecord 1000 rfl⟩

/-!
## C3 — sorting and elapsed-key monotonicity

The code sorts the retained records by timestamp and computes elapsed
time relative to the first retained sample, so elapsed time starts at 0
and is non-decreasing. Elapsed distance, however, is the record's own
cumulative `distance` field (km, rounded), NOT re-based to the first
sample: it need not start at 0 nor be non-decreasing.
-/

/-- First record of the C3 counterexample: at timestamp 0 the raw
cumulative distance is 5000 m. -/
def c3RecA : RawRecord :=
  { emptyRecord with timestamp := some 0, distance := some 5000 }

/-- Second record of the C3 counterexample: at timestamp 1000 the raw
cumulative distance is 3000 m. -/
def c3RecB : RawRecord :=
  { emptyRecord with timestamp := some 1000, distance := some 3000 }

/-- Counterexample for C3: for records with timestamps 0 and 1000 and raw
distances 5000 m and 3000 m, the canonical distances are [5, 3] km — the
first sample's elapsed distance is not zero and the distances are not
non-decreasing. -/
theorem claim3_counterexample :
    (processRecords [c3RecA, c3RecB]).map (fun p => p.distance) = [5, 3] ∧
    ¬ List.Chain' (fun a b => a.distance ≤ b.distance)
        (processRecords [c3RecA, c3RecB]) ∧
    ¬ (∀ p, (processRecords [c3RecA, c3RecB]).head? = some p →
        p.distance = 0) := by
  have hmap : (processRecords [c3RecA, c3RecB]).map (fun p => p.distance)
      = [5, 3] := by
    norm_num [processRecords, recordsWithDistance, c3RecA, c3RecB, emptyRecord,
      recLE, tsOf, sampleOfRecord, rawDistKm, jsToFixedRat, round_eq]
  refine ⟨hmap, ?_, ?_⟩
  · intro hch
    have h2 : List.Chain' (· ≤ ·)
        ((processRecords [c3RecA, c3RecB]).map (fun p => p.distance)) :=
      (List.chain'_map _).mpr hch
    rw [hmap] at h2
    have := (List.chain'_cons.mp h2).1
    norm_num at this
  · intro hall
    have h5 : (processRecords [c3RecA, c3RecB]).head?.map (fun p => p.distance)
        = some 5 := by
      rw [← List.head?_map, hmap]
      rfl
    obtain ⟨p, hp, hpd⟩ := Option.map_eq_some'.mp h5
    have h0 := hall p hp
    rw [h0] at hpd
    norm_num at hpd

/-- C3 (amended): normalization sorts the retained records by timestamp
ascending and computes elapsed time relative to the first retained
sample, so canonical timestamps and elapsed times are non-decreasing for
all adjacent pairs and the first sample's elapsed time is zero, even for
out-of-order input; each sample's elapsed distance, however, is its own
record's cumulative distance (km, `toFixed(2)`), not re-based to the
first sample. -/
theorem claim3_sorted_elapsed (records : List RawRecord) :
    List.Chain' (fun a b => a.timestamp ≤ b.timestamp) (processRecords records) ∧
    List.Chain' (fun a b => a.time ≤ b.time) (processRecords records) ∧
    (∀ p, (processRecords records).head? = some p → p.time = 0) ∧
    (∀ p ∈ processRecords records, ∃ r ∈ recordsWithDistance records,
      p.distance = rawDistKm r ∧ p.timestamp = tsOf r) := by
  unfold processRecords
  cases h : List.insertionSort recLE (recordsWithDistance records) with
  | nil => simp
  | cons first rest =>
    have hs : List.Sorted recLE (first :: rest) := by
      rw [← h]; exact List.sorted_insertionSort recLE _
    have hperm : (first :: rest).Perm (recordsWithDistance records) := by
      rw [← h]; exact List.perm_insertionSort recLE _
    refine ⟨?_, ?_, ?_, ?_⟩
    · refine List.Pairwise.chain' ?_
      rw [List.pairwise_map]
      exact hs.imp fun hab => hab
    · refine List.Pairwise.chain' ?_
      rw [List.pairwise_map]
      exact hs.imp fun hab => sub_le_sub_right hab _
    · intro p hp
      simp only [List.map_cons, List.head?_cons, Option.some.injEq] at hp
      rw [← hp]
      exact sub_self _
    · intro p hp
      rw [List.mem_map] at hp
      obtain ⟨r, hr, rfl⟩ := hp
      exact ⟨r, hperm.subset hr, rfl, rfl⟩

/-- Witness for C3 (amended): records supplied out of timestamp order are
sorted, the head sample has elapsed time 0, and elapsed times are
non-decreasing. -/
theorem claim3_sorted_elapsed_witness :
    (processRecords [c3RecB, c3RecA]).head? = some (sampleOfRecord 0 c3RecA) ∧
    (sampleOfRecord 0 c3RecA).time = 0 ∧
    List.Chain' (fun a b => a.time ≤ b.time) (processRecords [c3RecB, c3RecA]) :=
  have hhead : (processRecords [c3RecB, c3RecA]).head?
      = some (sampleOfRecord 0 c3RecA) := by
    norm_num [processRecords, recordsWithDistance, c3RecA, c3RecB, emptyRecord,
      recLE, tsOf]
  ⟨hhead,
   (claim3_sorted_elapsed [c3RecB, c3RecA]).2.2.1 _ hhead,
   (claim3_sorted_elapsed [c3RecB, c3RecA]).2.1⟩

/-!
## SeriesAligner (`getDisplayData` DEM merge, src/unnamed/part_001)

For each canonical sample, the display layer looks up
`demSet.data.find(dp => dp.time === point.time || dp.distance === point.distance)`
and attaches that DEM point's altitude (unit-converted) when found and
non-null; otherwise the display row simply has no DEM value.
-/

/-- One fetched DEM point: the originating sample's `time`/`distance` keys
are copied verbatim, plus the fetched altitude (metres). -/
structure DemPoint where
  time : ℤ
  distance : ℚ
  latitude : Option ℚ
  longitude : Option ℚ
  altitude : ℚ
deriving DecidableEq

/-- The matching predicate of the `find` callback. -/
def demMatches (p : SamplePoint) (dp : DemPoint) : Prop :=
  dp.time = p.time ∨ dp.distance = p.distance

instance : ∀ p dp, Decidable (demMatches p dp) := fun p dp =>
  inferInstanceAs (Decidable (dp.time = p.time ∨ dp.distance = p.distance))

/-- The aligner: first DEM point whose time or distance equals the
sample's, if any; its altitude is attached verbatim (scaled only for unit
display), and a sample with no match gets no DEM value. -/
def alignDemAltitude (demData : List DemPoint) (p : SamplePoint) : Option ℚ :=
  (demData.find? fun dp => decide (demMatches p dp)).map fun dp => dp.altitude

/-- C6: a DEM altitude is attached to a canonical sample only when some
DEM point matches exactly on elapsed time or elapsed distance, the
attached value is that DEM point's altitude verbatim (no interpolation),
and a sample matching no DEM point gets no DEM value. -/
theorem claim6_align_exact_match :
    (∀ (d : List DemPoint) (p : SamplePoint) (a : ℚ),
      alignDemAltitude d p = some a →
      ∃ dp ∈ d, (dp.time = p.time ∨ dp.distance = p.distance) ∧ dp.altitude = a) ∧
    (∀ (d : List DemPoint) (p : SamplePoint),
      (∀ dp ∈ d, dp.time ≠ p.time ∧ dp.distance ≠ p.distance) →
      alignDemAltitude d p = none) := by
  constructor
  · intro d p a ha
    rw [alignDemAltitude, Option.map_eq_some'] at ha
    obtain ⟨dp, hfind, rfl⟩ := ha
    refine ⟨dp, List.mem_of_find?_eq_some hfind, ?_, rfl⟩
    have := List.find?_some hfind
    rw [decide_eq_true_eq] at this
    exact this
  · intro d p hnone
    rw [alignDemAltitude, Option.map_eq_none', List.find?_eq_none]
    intro dp hdp
    simp only [demMatches, decide_eq_true_eq]
    rcases hnone dp hdp with ⟨ht, hd⟩
    rintro (h | h)
    · exact ht h
    · exact hd h

/-- A canonical sample with every metric absent, at the given keys. -/
def bareSample (t : ℤ) (d : ℚ) : SamplePoint :=
  ⟨t - t + t, d, t, none, none, none, none, none, none, none, none⟩

/-- Witness for C6: with DEM data [(time 5, distance 1, altitude 30)],
the sample at (time 5, distance 7) matches on time and receives altitude
30, while the sample at (time 9, distance 7) matches nothing and
receives no DEM value. -/
theorem claim6_align_exact_match_witness :
    (∃ dp ∈ [(⟨5, 1, none, none, 30⟩ : DemPoint)],
      (dp.time = (bareSample 5 7).time ∨ dp.distance = (bareSample 5 7).distance) ∧
      dp.altitude = 30) ∧
    alignDemAltitude [(⟨5, 1, none, none, 30⟩ : DemPoint)] (bareSample 9 7) = none := by
  constructor
  · exact claim6_align_exact_match.1 [⟨5, 1, none, none, 30⟩] (bareSample 5 7) 30
      (by norm_num [alignDemAltitude, demMatches, bareSample, List.find?])
  · exact claim6_align_exact_match.2 [⟨5, 1, none, none, 30⟩] (bareSample 9 7)
      (by norm_num [bareSample])

/-!
## C9 — shared rounded distance and the first-match rule

Normalization rounds elapsed distance to 2 decimal km (`toFixed(2)`), and
the aligner takes the FIRST DEM point matching on time OR distance. Two
canonical samples sharing a rounded distance therefore usually receive
the same DEM altitude — but not always: a sample whose elapsed time
matches an EARLIER DEM point is served by that point instead.
-/

/-- Counterexample for C9: DEM data [(time 5, dist 3, alt 30),
(time 5, dist 1, alt 10)]; samples (time 5, dist 1) and (time 9, dist 1)
share the rounded distance 1, yet the first matches the first DEM point
by time (altitude 30) while the second matches the second DEM point by
distance (altitude 10) — different values. -/
theorem claim9_counterexample :
    (bareSample 5 1).distance = (bareSample 9 1).distance ∧
    alignDemAltitude
      [(⟨5, 3, none, none, 30⟩ : DemPoint), (⟨5, 1, none, none, 10⟩ : DemPoint)]
      (bareSample 5 1) = some 30 ∧
    alignDemAltitude
      [(⟨5, 3, none, none, 30⟩ : DemPoint), (⟨5, 1, none, none, 10⟩ : DemPoint)]
      (bareSample 9 1) = some 10 := by
  refine ⟨rfl, ?_, ?_⟩ <;>
    norm_num [alignDemAltitude, demMatches, bareSample, List.find?]

/-- C9 (amended): elapsed-distance keys are rounded to 2 decimal km at
normalization; the aligner takes the first DEM point matching on time or
rounded distance; and two canonical samples sharing the same rounded
distance are assigned the same DEM altitude PROVIDED neither sample's
elapsed time coincides with any DEM point's time (so both can only match
on the shared distance). -/
theorem claim9_shared_distance :
    (∀ (r : RawRecord) (d : ℚ), r.distance = some d →
      rawDistKm r = jsToFixedRat 2 (d / 1000)) ∧
    (∀ (d1 d2 : List DemPoint) (dp : DemPoint) (p : SamplePoint),
      demMatches p dp → (∀ dp' ∈ d1, ¬ demMatches p dp') →
      alignDemAltitude (d1 ++ dp :: d2) p = some dp.altitude) ∧
    (∀ (d : List DemPoint) (p1 p2 : SamplePoint),
      p1.distance = p2.distance →
      (∀ dp ∈ d, dp.time ≠ p1.time ∧ dp.time ≠ p2.time) →
      alignDemAltitude d p1 = alignDemAltitude d p2) := by
  refine ⟨?_, ?_, ?_⟩
  · intro r d hd
    rw [rawDistKm, hd]
  · intro d1 d2 dp p hm hnot
    rw [alignDemAltitude, List.find?_append]
    have h1 : d1.find? (fun dp' => decide (demMatches p dp')) = none := by
      rw [List.find?_eq_none]
      intro dp' hdp'
      simpa using hnot dp' hdp'
    rw [h1, Option.none_or, List.find?_cons_of_pos _ (by simpa using hm)]
    rfl
  · intro d p1 p2 hdist htime
    induction d with
    | nil => rfl
    | cons dp rest ih =>
      rcases htime dp (List.mem_cons_self dp rest) with ⟨h1, h2⟩
      by_cases hd : dp.distance = p1.distance
      · rw [alignDemAltitude, alignDemAltitude,
          List.find?_cons_of_pos _ (by simp [demMatches, hd]),
          List.find?_cons_of_pos _ (by simp [demMatches, hdist ▸ hd])]
      · rw [alignDemAltitude, alignDemAltitude,
          List.find?_cons_of_neg _ (by simp [demMatches, hd, h1]),
          List.find?_cons_of_neg _ (by simp [demMatches, hdist ▸ hd, h2])]
        exact ih fun dp' h' => htime dp' (List.mem_cons_of_mem _ h')

/-- Witness for C9 (amended): two samples at distance 1 with times 8 and 9,
DEM data [(time 5, dist 1, alt 10)] matching neither time: both receive
altitude 10. -/
theorem claim9_shared_distance_witness :
    alignDemAltitude [(⟨5, 1, none, none, 10⟩ : DemPoint)] (bareSample 8 1)
      = alignDemAltitude [(⟨5, 1, none, none, 10⟩ : DemPoint)] (bareSample 9 1) :=
  claim9_shared_distance.2.2 [⟨5, 1, none, none, 10⟩] (bareSample 8 1)
    (bareSample 9 1) rfl (by norm_num [bareSample])

/-!
## DemFetchOrchestrator (`handleFetchDemElevation`, src/unnamed/part_001)

Two strategies over the points that carry coordinates:
* USGS: one request per point, each response either fails (network/HTTP/
  non-numeric value, modelled as `none`) or yields a numeric value, with
  `-1000000` a sentinel for "no data"; progress `{i+1, n}` is set after
  every point, inside and outside the failure paths alike.
* OpenTopography: batches of 100 (`for i += 100`), one request per batch;
  a batch either fails wholesale (`none`) or yields per-point nullable
  elevations; progress `{min(i+100, n), n}` is set after every batch.
Afterwards, shared result-policy code sets `demError` and always
publishes the fetched points as the provider's dataset.
-/

/-- Fetch progress as held in `demFetchProgress` ({current, total}). -/
structure FetchProgress where
  current : ℕ
  total : ℕ
deriving DecidableEq

/-- Display name of the USGS provider (DEM_SOURCES.usgs.name). -/
def usgsName : String := "USGS EPQS (USA)"

/-- Display name of the OpenTopography provider (DEM_SOURCES.opentopo.name). -/
def opentopoName : String := "OpenTopography (Global)"

/-- USGS response validation: `!isNaN(elevation) && elevation !== -1000000`.
A failed / non-numeric response is `none`. -/
def validUsgsElevation (resp : Option ℚ) : Option ℚ :=
  match resp with
  | none => none
  | some v => if v = -1000000 then none else some v

/-- The DEM point pushed for a successful fetch: the originating point's
keys plus `parseFloat(elevation.toFixed(2))`. -/
def demPointOf (p : SamplePoint) (e : ℚ) : DemPoint :=
  ⟨p.time, p.distance, p.latitude, p.longitude, jsToFixedRat 2 e⟩

/-- The USGS per-point loop: for each point (index `i` of `n`), validate
the oracle's response; on success push a DEM point and count it; in every
case report progress `{i+1, n}`. Returns (fetchedDemPoints,
successfulFetches, progress reports in order). -/
def usgsLoop (oracle : ℕ → Option ℚ) (n : ℕ) :
    List SamplePoint → ℕ → List DemPoint × ℕ × List FetchProgress
  | [], _ => ([], 0, [])
  | p :: rest, i =>
    let r := usgsLoop oracle n rest (i + 1)
    match validUsgsElevation (oracle i) with
    | some e => (demPointOf p e :: r.1, r.2.1 + 1, ⟨i + 1, n⟩ :: r.2.2)
    | none => (r.1, r.2.1, ⟨i + 1, n⟩ :: r.2.2)

/-- A whole USGS fetch run over the points with coordinates. -/
def usgsRun (oracle : ℕ → Option ℚ) (pts : List SamplePoint) :
    List DemPoint × ℕ × List FetchProgress :=
  usgsLoop oracle pts.length pts 0

/-- The result policy shared by both strategies (`setDemError` branches):
zero successes (with at least one point) is a hard error naming the
provider; fewer successes than points is a warning with the
success/total ratio; full success sets no message. -/
def demRunError (providerName : String) (succ n : ℕ) : Option String :=
  if succ = 0 ∧ 0 < n then
    some ("Could not fetch any elevation data from " ++ providerName ++
      ". Check console for details.")
  else if succ < n then
    some ("Successfully fetched " ++ toString succ ++ " of " ++ toString n ++
      " points from " ++ providerName ++
      ". Some points may be missing elevation. Check console.")
  else
    none

/-- The DEM points recovered from one OpenTopography batch response:
nothing for a failed batch, else the batch's points zipped with the
per-point nullable elevations. -/
def otBatchResult (batch : List SamplePoint) (resp : Option (List (Option ℚ))) :
    List DemPoint :=
  match resp with
  | none => []
  | some results =>
    (batch.zip results).filterMap fun pr => pr.2.map (demPointOf pr.1)

/-- The OpenTopography batch loop (`for (i = 0; i < n; i += 100)`):
one request per batch of 100, collecting that batch's successes and then
reporting progress `{min(i+100, n), n}` whether or not the batch failed. -/
def otLoop (oracle : ℕ → Option (List (Option ℚ))) (n : ℕ) :
    List SamplePoint → ℕ → List DemPoint × List FetchProgress
  | [], _ => ([], [])
  | p :: rest, i =>
    let got := otBatchResult ((p :: rest).take 100) (oracle i)
    let r := otLoop oracle n ((p :: rest).drop 100) (i + 100)
    (got ++ r.1, ⟨min (i + 100) n, n⟩ :: r.2)
termination_by pts _ => pts.length
decreasing_by simp; omega

/-- A whole OpenTopography fetch run over the points with coordinates. -/
def otRun (oracle : ℕ → Option (List (Option ℚ))) (pts : List SamplePoint) :
    List DemPoint × List FetchProgress :=
  otLoop oracle pts.length pts 0

/-- The batch start indices the loop iterates over (one request each). -/
def batchStarts : List SamplePoint → ℕ → List ℕ
  | [], _ => []
  | p :: rest, i => i :: batchStarts ((p :: rest).drop 100) (i + 100)
termination_by pts _ => pts.length
decreasing_by simp; omega

lemma otLoop_progress_eq (oracle : ℕ → Option (List (Option ℚ))) (n : ℕ) :
    ∀ (pts : List SamplePoint) (i : ℕ),
      (otLoop oracle n pts i).2
        = (batchStarts pts i).map (fun j => (⟨min (j + 100) n, n⟩ : FetchProgress)) := by
  have H : ∀ (k : ℕ) (pts : List SamplePoint), pts.length ≤ k → ∀ i,
      (otLoop oracle n pts i).2
        = (batchStarts pts i).map
            (fun j => (⟨min (j + 100) n, n⟩ : FetchProgress)) := by
    intro k
    induction k with
    | zero =>
      intro pts hlen i
      have hnil : pts = [] := List.eq_nil_of_length_eq_zero (Nat.le_zero.mp hlen)
      subst hnil
      simp [otLoop, batchStarts]
    | succ k ih =>
      intro pts hlen i
      cases pts with
      | nil => simp [otLoop, batchStarts]
      | cons p rest =>
        simp only [otLoop, batchStarts, List.map_cons]
        rw [ih ((p :: rest).drop 100) (by simp at hlen ⊢; omega)]
  exact fun pts i => H pts.length pts le_rfl i

lemma batchStarts_length :
    ∀ (pts : List SamplePoint) (i : ℕ),
      (batchStarts pts i).length = (pts.length + 99) / 100 := by
  have H : ∀ (k : ℕ) (pts : List SamplePoint), pts.length ≤ k → ∀ i,
      (batchStarts pts i).length = (pts.length + 99) / 100 := by
    intro k
    induction k with
    | zero =>
      intro pts hlen i
      have hnil : pts = [] := List.eq_nil_of_length_eq_zero (Nat.le_zero.mp hlen)
      subst hnil
      simp [batchStarts]
    | succ k ih =>
      intro pts hlen i
      cases pts with
      | nil => simp [batchStarts]
      | cons p rest =>
        simp only [batchStarts, List.length_cons]
        rw [ih ((p :: rest).drop 100) (by simp at hlen ⊢; omega)]
        simp only [List.length_drop, List.length_cons]
        omega
  exact fun pts i => H pts.length pts le_rfl i

lemma batchStarts_head :
    ∀ (pts : List SamplePoint) (i : ℕ), pts ≠ [] →
      (batchStarts pts i).head? = some i := by
  intro pts i h
  cases pts with
  | nil => exact absurd rfl h
  | cons p rest => simp [batchStarts]

lemma batchStarts_progress_chain (n : ℕ) :
    ∀ (pts : List SamplePoint) (i : ℕ),
      List.Chain' (fun a b : FetchProgress => a.current ≤ b.current)
        ((batchStarts pts i).map
          (fun j => (⟨min (j + 100) n, n⟩ : FetchProgress))) := by
  have H : ∀ (k : ℕ) (pts : List SamplePoint), pts.length ≤ k → ∀ i,
      List.Chain' (fun a b : FetchProgress => a.current ≤ b.current)
        ((batchStarts pts i).map
          (fun j => (⟨min (j + 100) n, n⟩ : FetchProgress))) := by
    intro k
    induction k with
    | zero =>
      intro pts hlen i
      have hnil : pts = [] := List.eq_nil_of_length_eq_zero (Nat.le_zero.mp hlen)
      subst hnil
      simp [batchStarts]
    | succ k ih =>
      intro pts hlen i
      cases pts with
      | nil => simp [batchStarts]
      | cons p rest =>
        simp only [batchStarts, List.map_cons]
        refine List.Chain'.cons' (ih ((p :: rest).drop 100)
          (by simp at hlen ⊢; omega) (i + 100)) ?_
        intro b hb
        rw [List.head?_map] at hb
        cases hd : (batchStarts ((p :: rest).drop 100) (i + 100)).head? with
        | none => rw [hd] at hb; exact absurd hb (by simp)
        | some j =>
          rw [hd] at hb
          rw [Option.map_some', Option.mem_some_iff] at hb
          have hj : j = i + 100 := by
            cases hrest : (p :: rest).drop 100 with
            | nil => rw [hrest] at hd; exact absurd hd (by simp [batchStarts])
            | cons q qs =>
              rw [hrest] at hd
              rw [batchStarts_head _ _ (by simp)] at hd
              exact (Option.some.injEq _ _ ▸ hd).symm
          rw [← hb, hj]
          exact min_le_min (by omega) le_rfl
  exact fun pts i => H pts.length pts le_rfl i

lemma batchStarts_progress_getLast (n : ℕ) :
    ∀ (pts : List SamplePoint) (i : ℕ), pts ≠ [] → n = i + pts.length →
      ((batchStarts pts i).map
        (fun j => (⟨min (j + 100) n, n⟩ : FetchProgress))).getLast?
        = some ⟨n, n⟩ := by
  have H : ∀ (k : ℕ) (pts : List SamplePoint), pts.length ≤ k → ∀ i,
      pts ≠ [] → n = i + pts.length →
      ((batchStarts pts i).map
        (fun j => (⟨min (j + 100) n, n⟩ : FetchProgress))).getLast?
        = some ⟨n, n⟩ := by
    intro k
    induction k with
    | zero =>
      intro pts hlen i hne _
      exact absurd (List.eq_nil_of_length_eq_zero (Nat.le_zero.mp hlen)) hne
    | succ k ih =>
      intro pts hlen i hne hn
      cases pts with
      | nil => exact absurd rfl hne
      | cons p rest =>
        simp only [batchStarts, List.map_cons]
        cases hrest : (p :: rest).drop 100 with
        | nil =>
          simp only [batchStarts, List.map_nil, List.getLast?_singleton,
            Option.some.injEq]
          have hle : (p :: rest).length ≤ 100 := by
            have := congrArg List.length hrest
            simp only [List.length_drop, List.length_nil] at this
            omega
          have hni : n ≤ i + 100 := by rw [hn]; omega
          simp [min_eq_right hni]
        | cons q qs =>
          have hlarge : 100 < (p :: rest).length := by
            have := congrArg List.length hrest
            simp only [List.length_drop, List.length_cons] at this
            simp only [List.length_cons]
            omega
          have hIH := ih ((p :: rest).drop 100)
            (by simp at hlen ⊢; omega) (i + 100)
            (by rw [hrest]; simp)
            (by
              simp only [List.length_drop, List.length_cons] at hn hlarge ⊢
              omega)
          rw [hrest] at hIH
          have hunf : batchStarts (q :: qs) (i + 100)
              = (i + 100) :: batchStarts ((q :: qs).drop 100) (i + 100 + 100) := by
            simp only [batchStarts]
          rw [hunf, List.map_cons, List.getLast?_cons_cons]
          show (List.map (fun j => (⟨min (j + 100) n, n⟩ : FetchProgress))
            ((i + 100) :: batchStarts ((q :: qs).drop 100)
              (i + 100 + 100))).getLast? = some ⟨n, n⟩
          rw [← hunf]
          exact hIH
  exact fun pts i => H pts.length pts le_rfl i

/-- C4: a batch-capable (OpenTopography) fetch run over n points issues
exactly ceil(n/100) batch requests (`batchStarts` lists one start index
per request), reports progress once per completed request, with
`completed` non-decreasing, independently of which requests fail, and the
final report is {n, n}; for n = 250 exactly 3 requests are issued. -/
theorem claim4_dem_batching (oracle : ℕ → Option (List (Option ℚ)))
    (pts : List SamplePoint) (h : 0 < pts.length) :
    (batchStarts pts 0).length = (pts.length + 99) / 100 ∧
    (otRun oracle pts).2.length = (batchStarts pts 0).length ∧
    (∀ oracle2, (otRun oracle2 pts).2 = (otRun oracle pts).2) ∧
    List.Chain' (fun a b => a.current ≤ b.current) (otRun oracle pts).2 ∧
    (otRun oracle pts).2.getLast? = some ⟨pts.length, pts.length⟩ ∧
    (pts.length = 250 → (otRun oracle pts).2.length = 3) := by
  have hprog : ∀ o2, (otLoop o2 pts.length pts 0).2
      = (batchStarts pts 0).map
          (fun j => (⟨min (j + 100) pts.length, pts.length⟩ : FetchProgress)) :=
    fun o2 => otLoop_progress_eq o2 pts.length pts 0
  refine ⟨batchStarts_length pts 0, ?_, ?_, ?_, ?_, ?_⟩
  · rw [otRun, hprog, List.length_map]
  · intro o2
    rw [otRun, otRun, hprog, hprog]
  · rw [otRun, hprog]
    exact batchStarts_progress_chain pts.length pts 0
  · rw [otRun, hprog]
    exact batchStarts_progress_getLast pts.length pts 0
      (List.length_pos.mp h) (by omega)
  · intro h250
    rw [otRun, hprog, List.length_map, batchStarts_length, h250]

/-- Witness for C4: 250 points and an oracle failing every batch. -/
theorem claim4_dem_batching_witness :
    0 < (List.replicate 250 (bareSample 0 0)).length ∧
    (otRun (fun _ => none) (List.replicate 250 (bareSample 0 0))).2.getLast?
      = some ⟨250, 250⟩ ∧
    (otRun (fun _ => none) (List.replicate 250 (bareSample 0 0))).2.length = 3 := by
  have hlen : (List.replicate 250 (bareSample 0 0)).length = 250 :=
    List.length_replicate 250 (bareSample 0 0)
  have h := claim4_dem_batching (fun _ => none)
    (List.replicate 250 (bareSample 0 0)) (by rw [hlen]; norm_num)
  refine ⟨by rw [hlen]; norm_num, ?_, h.2.2.2.2.2 hlen⟩
  have hgl := h.2.2.2.2.1
  rw [hlen] at hgl
  exact hgl

lemma usgsLoop_fetched (oracle : ℕ → Option ℚ) (n : ℕ) :
    ∀ (pts : List SamplePoint) (i : ℕ),
      (usgsLoop oracle n pts i).1
        = ((List.range' i pts.length).zip pts).filterMap
            (fun ip => (validUsgsElevation (oracle ip.1)).map (demPointOf ip.2)) := by
  intro pts
  induction pts with
  | nil => intro i; rfl
  | cons p rest ih =>
    intro i
    rw [List.length_cons, List.range'_succ, List.zip_cons_cons,
      List.filterMap_cons]
    cases h : validUsgsElevation (oracle i) with
    | none => simp only [usgsLoop, h, Option.map_none']; exact ih (i + 1)
    | some e =>
      simp only [usgsLoop, h, Option.map_some']
      rw [ih (i + 1)]

lemma usgsLoop_succ_length (oracle : ℕ → Option ℚ) (n : ℕ) :
    ∀ (pts : List SamplePoint) (i : ℕ),
      (usgsLoop oracle n pts i).2.1 = (usgsLoop oracle n pts i).1.length := by
  intro pts
  induction pts with
  | nil => intro i; rfl
  | cons p rest ih =>
    intro i
    cases h : validUsgsElevation (oracle i) with
    | none => simp only [usgsLoop, h]; exact ih (i + 1)
    | some e => simp only [usgsLoop, h, List.length_cons]; rw [ih (i + 1)]

/-- C5: after a per-point (USGS) fetch run, the published dataset is
exactly the DEM points of the successfully fetched inputs, in order; the
run's error message is a hard failure naming the provider when nothing
succeeded, a warning containing the success/total ratio when only part
succeeded, and absent when everything succeeded. -/
theorem claim5_dem_result_policy (oracle : ℕ → Option ℚ)
    (pts : List SamplePoint) :
    ((usgsRun oracle pts).2.1 = 0 → 0 < pts.length →
      ∃ pre post, demRunError usgsName (usgsRun oracle pts).2.1 pts.length
        = some (pre ++ usgsName ++ post)) ∧
    (0 < (usgsRun oracle pts).2.1 → (usgsRun oracle pts).2.1 < pts.length →
      ∃ pre post, demRunError usgsName (usgsRun oracle pts).2.1 pts.length
        = some (pre ++ toString (usgsRun oracle pts).2.1 ++ " of "
            ++ toString pts.length ++ post)) ∧
    ((usgsRun oracle pts).2.1 = pts.length →
      demRunError usgsName (usgsRun oracle pts).2.1 pts.length = none) ∧
    (usgsRun oracle pts).1
      = ((List.range' 0 pts.length).zip pts).filterMap
          (fun ip => (validUsgsElevation (oracle ip.1)).map (demPointOf ip.2)) ∧
    (usgsRun oracle pts).2.1 = (usgsRun oracle pts).1.length := by
  refine ⟨?_, ?_, ?_, usgsLoop_fetched oracle pts.length pts 0,
    usgsLoop_succ_length oracle pts.length pts 0⟩
  · intro h0 hn
    rw [demRunError, if_pos ⟨h0, hn⟩]
    exact ⟨"Could not fetch any elevation data from ",
      ". Check console for details.", rfl⟩
  · intro hpos hlt
    rw [demRunError, if_neg (by omega), if_pos hlt]
    refine ⟨"Successfully fetched ",
      " points from " ++ usgsName
        ++ ". Some points may be missing elevation. Check console.", ?_⟩
    simp only [String.append_assoc]
  · intro heq
    rw [demRunError, if_neg (by omega), if_neg (by omega)]

/-- C5 witness oracle: sentinel no-data (-1000000) for points 1, 4, 8,
a valid elevation for the rest. -/
def c5Oracle : ℕ → Option ℚ :=
  fun i => if i = 1 ∨ i = 4 ∨ i = 8 then some (-1000000) else some 100

/-- C5 witness points: ten points with coordinates. -/
def c5Points : List SamplePoint := List.replicate 10 (bareSample 0 0)

lemma c5_succ_count : (usgsRun c5Oracle c5Points).2.1 = 7 := by
  norm_num [usgsRun, c5Points, c5Oracle, usgsLoop, validUsgsElevation,
    List.replicate]

/-- Witness for C5: 10 points with 3 sentinel no-data responses give a
partial run (7 of 10) whose message contains the 7-of-10 ratio. -/
theorem claim5_dem_result_policy_witness :
    0 < (usgsRun c5Oracle c5Points).2.1 ∧
    (usgsRun c5Oracle c5Points).2.1 < c5Points.length ∧
    ∃ pre post,
      demRunError usgsName (usgsRun c5Oracle c5Points).2.1 c5Points.length
        = some (pre ++ toString (usgsRun c5Oracle c5Points).2.1 ++ " of "
            ++ toString c5Points.length ++ post) :=
  ⟨by rw [c5_succ_count]; norm_num,
   by rw [c5_succ_count]; norm_num [c5Points],
   (claim5_dem_result_policy c5Oracle c5Points).2.1
     (by rw [c5_succ_count]; norm_num)
     (by rw [c5_succ_count]; norm_num [c5Points])⟩

/-!
## UnitConverter / SessionSummaryProjector (src/src/SessionDataDisplay.js)

JS values reaching `formatValue` are numbers, Dates, or strings. A Date
carries two environment-dependent renderings (`toLocaleString()` and
`String(value)`), modelled as opaque strings on the value.
-/

/-- A JS value stored in a session summary field. -/
inductive JsValue where
  | num (q : ℚ)
  | str (s : String)
  | date (localeStr : String) (defaultStr : String)
deriving DecidableEq

/-- Model of `String.prototype.padStart(len, c)`. -/
def padStart (len : ℕ) (c : Char) (s : String) : String :=
  String.mk (List.replicate (len - s.length) c) ++ s

/-- The seconds → `HH:MM:SS` conversion of `formatValue` (hours =
`Math.floor(value/3600)`, minutes = `Math.floor((value % 3600)/60)`,
seconds = `Math.floor(value % 60)`, each zero-padded to 2 digits). -/
def formatDuration (v : ℚ) : String :=
  let hours := ⌊v / 3600⌋
  let minutes := ⌊jsMod v 3600 / 60⌋
  let seconds := ⌊jsMod v 60⌋
  padStart 2 '0' (toString hours) ++ ":" ++ padStart 2 '0' (toString minutes)
    ++ ":" ++ padStart 2 '0' (toString seconds)

/-- Model of `x.toFixed(f)` as the decimal string (round to nearest). -/
def jsToFixedStr (f : ℕ) (q : ℚ) : String :=
  let n : ℤ := round (q * (10 : ℚ) ^ f)
  let sign := if n < 0 then "-" else ""
  let a := n.natAbs
  if f = 0 then sign ++ toString a
  else sign ++ toString (a / 10 ^ f) ++ "." ++ padStart f '0' (toString (a % 10 ^ f))

/-- The `formatValue` function of SessionDataDisplay: "N/A" for an absent
value, `toLocaleString()` for the startTime Date, unit-converted fixed-
point strings per key for numbers, `String(value)` otherwise. -/
def formatValue (isMetric : Bool) (key : String) (value : Option JsValue) :
    String :=
  match value with
  | none => "N/A"
  | some (.date locale dflt) => if key = "startTime" then locale else dflt
  | some (.str s) => s
  | some (.num q) =>
    if key = "totalDistance" then
      if isMetric then jsToFixedStr 2 (q / 1000)
      else jsToFixedStr 2 (q * 0.000621371)
    else if key = "avgSpeed" ∨ key = "maxSpeed" then
      if isMetric then jsToFixedStr 1 (q * 3.6)
      else jsToFixedStr 1 (q * 2.23694)
    else if key = "totalAscent" ∨ key = "totalDescent" ∨ key = "minAltitude"
        ∨ key = "avgAltitude" ∨ key = "maxAltitude" then
      if isMetric then jsToFixedStr 0 q
      else jsToFixedStr 0 (q * 3.28084)
    else if key = "avgTemperature" ∨ key = "maxTemperature" then
      if isMetric then jsToFixedStr 0 q
      else jsToFixedStr 0 (q * 9 / 5 + 32)
    else if key = "totalElapsedTime" ∨ key = "totalTimerTime" then
      formatDuration q
    else if q.den = 1 then toString q.num
    else jsToFixedStr 2 q

/-- The fixed field → label table of `getDisplayFields()`. -/
def displayFields (isMetric : Bool) : List (String × String) :=
  [("startTime", "Start Time"),
   ("totalElapsedTime", "Total Elapsed Time (hh:mm:ss)"),
   ("totalTimerTime", "Total Timer Time (hh:mm:ss)"),
   ("totalDistance",
     "Total Distance (" ++ (if isMetric then "km" else "mi") ++ ")"),
   ("avgSpeed",
     "Average Speed (" ++ (if isMetric then "km/h" else "mph") ++ ")"),
   ("maxSpeed", "Max Speed (" ++ (if isMetric then "km/h" else "mph") ++ ")"),
   ("totalAscent", "Total Ascent (" ++ (if isMetric then "m" else "ft") ++ ")"),
   ("totalDescent",
     "Total Descent (" ++ (if isMetric then "m" else "ft") ++ ")"),
   ("minAltitude", "Min Altitude (" ++ (if isMetric then "m" else "ft") ++ ")"),
   ("avgAltitude", "Avg Altitude (" ++ (if isMetric then "m" else "ft") ++ ")"),
   ("maxAltitude", "Max Altitude (" ++ (if isMetric then "m" else "ft") ++ ")"),
   ("avgHeartRate", "Average Heart Rate (bpm)"),
   ("maxHeartRate", "Max Heart Rate (bpm)"),
   ("avgCadence", "Average Cadence (rpm)"),
   ("maxCadence", "Max Cadence (rpm)"),
   ("avgPower", "Average Power (W)"),
   ("maxPower", "Max Power (W)"),
   ("totalCalories", "Total Calories (kcal)"),
   ("normalizedPower", "Normalized Power (W)"),
   ("avgTemperature",
     "Avg Temperature (" ++ (if isMetric then "°C" else "°F") ++ ")"),
   ("maxTemperature",
     "Max Temperature (" ++ (if isMetric then "°C" else "°F") ++ ")")]

/-- The table-body loop: for each (key, label) of the fixed table, skip
the row entirely when the session field is absent, else render
(label, formatValue key value). -/
def renderRows (isMetric : Bool) (data : String → Option JsValue) :
    List (String × String) → List (String × String)
  | [] => []
  | (key, label) :: rest =>
    match data key with
    | none => renderRows isMetric data rest
    | some v =>
      (label, formatValue isMetric key (some v)) :: renderRows isMetric data rest

/-- The rendered session table for one summary record. -/
def sessionRows (isMetric : Bool) (data : String → Option JsValue) :
    List (String × String) :=
  renderRows isMetric data (displayFields isMetric)

lemma renderRows_eq_filter (b : Bool) (data : String → Option JsValue) :
    ∀ l : List (String × String),
      renderRows b data l
        = (l.filter (fun kl => (data kl.1).isSome)).map
            (fun kl => (kl.2, formatValue b kl.1 (data kl.1))) := by
  intro l
  induction l with
  | nil => rfl
  | cons kl rest ih =>
    obtain ⟨key, label⟩ := kl
    cases h : data key with
    | none =>
      simp only [renderRows, h, List.filter_cons]
      rw [if_neg (by simp [h])]
      exact ih
    | some v =>
      simp only [renderRows, h, List.filter_cons]
      rw [if_pos (by simp [h]), List.map_cons]
      simp only [h]
      rw [ih]

/-- C8: `formatValue` renders "N/A" for any absent value, and the
projector's rendered table contains exactly one row per field PRESENT in
the source summary (absent fields are skipped entirely, so no synthetic
zero is ever rendered for a missing field). -/
theorem claim8_na_and_skip :
    (∀ (b : Bool) (k : String), formatValue b k none = "N/A") ∧
    (∀ (b : Bool) (data : String → Option JsValue),
      sessionRows b data
        = ((displayFields b).filter (fun kl => (data kl.1).isSome)).map
            (fun kl => (kl.2, formatValue b kl.1 (data kl.1)))) :=
  ⟨fun _ _ => rfl, fun b data => renderRows_eq_filter b data (displayFields b)⟩

/-- The claim's duration formula: floor(s/3600), floor((s mod 3600)/60),
floor(s mod 60) with the mathematical (floored) remainder, each
zero-padded to 2 digits and joined with colons. -/
def durationSpecFormat (q : ℚ) : String :=
  padStart 2 '0' (toString ⌊q / 3600⌋) ++ ":"
    ++ padStart 2 '0' (toString ⌊(q - 3600 * (⌊q / 3600⌋ : ℚ)) / 60⌋) ++ ":"
    ++ padStart 2 '0' (toString ⌊q - 60 * (⌊q / 60⌋ : ℚ)⌋)

lemma jsMod_of_nonneg (q b : ℚ) (hq : 0 ≤ q) (hb : 0 < b) :
    jsMod q b = q - b * (⌊q / b⌋ : ℚ) := by
  rw [jsMod, jsTrunc, if_pos (div_nonneg hq hb.le)]

lemma formatDuration_eq_spec (q : ℚ) (hq : 0 ≤ q) :
    formatDuration q = durationSpecFormat q := by
  rw [formatDuration, durationSpecFormat,
    jsMod_of_nonneg q 3600 hq (by norm_num),
    jsMod_of_nonneg q 60 hq (by norm_num)]

/-- C7: for every non-negative number of seconds, the duration branch of
`formatValue` produces floor(s/3600), floor((s mod 3600)/60),
floor(s mod 60), zero-padded to 2 digits and joined with colons; in
particular 17957 seconds formats as "04:59:17". -/
theorem claim7_duration_format :
    (∀ (b : Bool) (q : ℚ), 0 ≤ q →
      formatValue b "totalElapsedTime" (some (JsValue.num q))
        = durationSpecFormat q ∧
      formatValue b "totalTimerTime" (some (JsValue.num q))
        = durationSpecFormat q) ∧
    formatValue false "totalElapsedTime" (some (JsValue.num 17957))
      = "04:59:17" := by
  have hbranch : ∀ (b : Bool) (q : ℚ),
      formatValue b "totalElapsedTime" (some (JsValue.num q))
        = formatDuration q ∧
      formatValue b "totalTimerTime" (some (JsValue.num q))
        = formatDuration q := by
    intro b q
    constructor <;> simp [formatValue]
  constructor
  · intro b q hq
    rw [(hbranch b q).1, (hbranch b q).2, formatDuration_eq_spec q hq]
    exact ⟨rfl, rfl⟩
  · rw [(hbranch false 17957).1]
    have h1 : ⌊(17957 : ℚ) / 3600⌋ = 4 := by norm_num
    have h2 : jsMod 17957 3600 = 3557 := by
      rw [jsMod_of_nonneg 17957 3600 (by norm_num) (by norm_num), h1]
      norm_num
    have h3 : ⌊(3557 : ℚ) / 60⌋ = 59 := by norm_num
    have h4 : ⌊(17957 : ℚ) / 60⌋ = 299 := by norm_num
    have h5 : jsMod 17957 60 = 17 := by
      rw [jsMod_of_nonneg 17957 60 (by norm_num) (by norm_num), h4]
      norm_num
    rw [formatDuration]
    rw [h2, h5, h1, h3]
    norm_num
    decide
/-- Witness for C7 at 17957 seconds. -/
theorem claim7_duration_format_witness :
    (0 : ℚ) ≤ 17957 ∧
    formatValue true "totalElapsedTime" (some (JsValue.num 17957))
      = durationSpecFormat 17957 :=
  ⟨by norm_num,
   ((claim7_duration_format.1 true 17957 (by norm_num)).1)⟩

/-!
## App state and the `onDrop` transition (src/unnamed/part_001)

The component's `useState` hooks form the state; `onDrop` first resets
every piece of state derived from the previous file, then branches on the
outcome of reading/decoding the dropped file. Decode outcomes are
modelled as an explicit event type.
-/

/-- One fetched DEM dataset as stored in `demDataSets`. -/
structure DemDataSet where
  data : List DemPoint
  name : String
  color : String
  attribution : String

/-- The component's state (one field per `useState` hook). -/
structure AppState where
  chartSourceData : List SamplePoint
  sessionData : Option (String → Option JsValue)
  error : Option String
  isLoading : Bool
  fileName : String
  isMetric : Bool
  fitAvailableFields : List String
  selectedFields : List String
  selectedDemSourceId : String
  demDataSets : List (String × DemDataSet)
  isFetchingDem : Bool
  demFetchProgress : FetchProgress
  demError : Option String

/-- Possible outcomes of one file drop, as observed by `onDrop`. -/
inductive DropOutcome where
  | noFile
  | wrongExtension (fname : String)
  | fileReadFailed (msg : String) (fname : String)
  | notFit (fname : String)
  | integrityFailed (fname : String)
  | decodeThrew (msg : String) (fname : String)
  | decoded (sessionMesgs : List (String → Option JsValue))
      (recordMesgs : List RawRecord) (fname : String)

/-- The reset prelude of `onDrop` (lines 290-298): clear both error
messages, the chart series, the file name, the session data, the
available-field list, the DEM datasets, reset the selected fields to
['altitude'] and start loading. -/
def onDropReset (s : AppState) : AppState :=
  { s with
    error := none
    demError := none
    chartSourceData := []
    fileName := ""
    sessionData := none
    fitAvailableFields := []
    selectedFields := ["altitude"]
    demDataSets := []
    isLoading := true }

/-- The plottable FIT field keys (`FIT_FIELDS_CONFIG`). -/
def fitFieldKeys : List String :=
  ["altitude", "speed", "heartRate", "cadence", "power", "grade"]

/-- Field lookup on a canonical sample by FIT config key. -/
def sampleField (p : SamplePoint) (k : String) : Option ℚ :=
  if k = "altitude" then p.altitude
  else if k = "speed" then p.speed
  else if k = "heartRate" then p.heartRate
  else if k = "cadence" then p.cadence
  else if k = "power" then p.power
  else if k = "grade" then p.grade
  else none

/-- The full `onDrop` transition: reset, then handle the drop outcome.
Failure outcomes only set `error` (and the file name when known);
a decoded file sets the session data, then either reports "no usable
records" or publishes the processed chart data and derives the available
and selected fields from the first sample. -/
def onDropModel (s : AppState) (ev : DropOutcome) : AppState :=
  let s0 := onDropReset s
  match ev with
  | .noFile =>
    { s0 with
      error := some "No file selected or file type not accepted."
      isLoading := false }
  | .wrongExtension fname =>
    { s0 with
      fileName := fname
      error := some "Invalid file type. Please upload a .FIT file."
      isLoading := false }
  | .fileReadFailed m fname =>
    { s0 with
      fileName := fname
      error := some ("Failed to read the file using FileReader: " ++ m)
      isLoading := false }
  | .notFit fname =>
    { s0 with
      fileName := fname
      error := some "File is not a valid FIT file (invalid header)."
      isLoading := false }
  | .integrityFailed fname =>
    { s0 with
      fileName := fname
      error := some "File integrity check failed (CRC errors). Processing halted."
      isLoading := false }
  | .decodeThrew m fname =>
    { s0 with
      fileName := fname
      error := some ("An unexpected error occurred during decoding: " ++ m)
      isLoading := false }
  | .decoded sessions records fname =>
    let s1 := { s0 with
      fileName := fname
      sessionData := sessions.head? }
    if (recordsWithDistance records).isEmpty then
      { s1 with
        chartSourceData := []
        fitAvailableFields := []
        selectedFields := ["altitude"]
        error := some "No records with timestamp and distance found to create a chart."
        isLoading := false }
    else
      let processed := processRecords records
      let s2 := { s1 with chartSourceData := processed }
      match processed with
      | [] => { s2 with fitAvailableFields := [], selectedFields := [] }
      | firstPoint :: _ =>
        let found := fitFieldKeys.filter fun k => (sampleField firstPoint k).isSome
        { s2 with
          fitAvailableFields := found
          selectedFields :=
            if found.contains "altitude" then ["altitude"]
            else
              match found with
              | [] => []
              | f0 :: _ => [f0] }

/-- Whether the outcome is a failure to decode the dropped file. -/
def decodeFailed : DropOutcome → Bool
  | .decoded _ _ _ => false
  | _ => true

/-- C10: the reset prelude of every drop clears the chart series, the
session data, the DEM datasets, both error messages and the
available-field list, and resets the selected fields to ['altitude'];
when the new file fails to decode, the resulting state still has all the
file-derived data cleared, so nothing from a previously loaded file
remains visible. -/
theorem claim10_on_drop_clears (s : AppState) (ev : DropOutcome) :
    ((onDropReset s).chartSourceData = [] ∧
     (onDropReset s).sessionData = none ∧
     (onDropReset s).demDataSets = [] ∧
     (onDropReset s).error = none ∧
     (onDropReset s).demError = none ∧
     (onDropReset s).fitAvailableFields = [] ∧
     (onDropReset s).selectedFields = ["altitude"]) ∧
    (decodeFailed ev = true →
      (onDropModel s ev).chartSourceData = [] ∧
      (onDropModel s ev).sessionData = none ∧
      (onDropModel s ev).demDataSets = [] ∧
      (onDropModel s ev).fitAvailableFields = [] ∧
      (onDropModel s ev).selectedFields = ["altitude"] ∧
      (onDropModel s ev).demError = none) := by
  refine ⟨⟨rfl, rfl, rfl, rfl, rfl, rfl, rfl⟩, ?_⟩
  intro hf
  cases ev with
  | noFile => exact ⟨rfl, rfl, rfl, rfl, rfl, rfl⟩
  | wrongExtension fname => exact ⟨rfl, rfl, rfl, rfl, rfl, rfl⟩
  | fileReadFailed m fname => exact ⟨rfl, rfl, rfl, rfl, rfl, rfl⟩
  | notFit fname => exact ⟨rfl, rfl, rfl, rfl, rfl, rfl⟩
  | integrityFailed fname => exact ⟨rfl, rfl, rfl, rfl, rfl, rfl⟩
  | decodeThrew m fname => exact ⟨rfl, rfl, rfl, rfl, rfl, rfl⟩
  | decoded sessions records fname => exact absurd hf (by simp [decodeFailed])

/-- A dirty pre-drop state carrying data from a previously loaded file. -/
def dirtyState : AppState where
  chartSourceData := [bareSample 0 0]
  sessionData := some fun _ => none
  error := some "old error"
  isLoading := false
  fileName := "old.fit"
  isMetric := true
  fitAvailableFields := ["altitude"]
  selectedFields := ["speed"]
  selectedDemSourceId := "usgs"
  demDataSets := [("usgs", ⟨[⟨0, 0, none, none, 1⟩], "USGS EPQS (USA)",
    "#ff00ff", "USGS 3DEP"⟩)]
  isFetchingDem := false
  demFetchProgress := ⟨3, 10⟩
  demError := some "old dem error"

/-- Witness for C10: dropping a non-FIT file over a dirty state leaves no
chart, session or DEM data behind. -/
theorem claim10_on_drop_clears_witness :
    decodeFailed (DropOutcome.notFit "bad.fit") = true ∧
    (onDropModel dirtyState (DropOutcome.notFit "bad.fit")).chartSourceData = [] ∧
    (onDropModel dirtyState (DropOutcome.notFit "bad.fit")).sessionData = none ∧
    (onDropModel dirtyState (DropOutcome.notFit "bad.fit")).demDataSets = [] ∧
    (onDropModel dirtyState (DropOutcome.notFit "bad.fit")).selectedFields
      = ["altitude"] := by
  have h := (claim10_on_drop_clears dirtyState (DropOutcome.notFit "bad.fit")).2
    rfl
  exact ⟨rfl, h.1, h.2.1, h.2.2.1, h.2.2.2.2.1⟩
